import Mathlib

/-!
# Verification of the 100x Productivity Analyzer scoring and search pipeline

Shallow embedding of `src/analytics/productivity_scorer.py` and
`src/semantic/simple_indexer.py`.  Python floats are modelled as exact
rationals (`ℚ`) where the code only performs field arithmetic, and as reals
(`ℝ`) where `math.log10` appears.  Python `list.index`, which raises
`ValueError` when the element is absent, is modelled with `Option`; the
whole of `_normalize_scores` therefore returns `Option` (with `none`
standing for an uncaught exception).
-/

/-- `GitHubStats` dataclass: per-engineer GitHub counters. -/
structure GitHubStats where
  prs_created : ℕ
  prs_merged : ℕ
  prs_reviewed : ℕ
  commits_made : ℕ
  lines_added : ℕ
  lines_deleted : ℕ
  files_changed : ℕ
  issues_created : ℕ
  issues_closed : ℕ
  review_comments : ℕ
deriving DecidableEq, Repr

/-- All-zero default, matching the dataclass defaults. -/
def GitHubStats.zero : GitHubStats := ⟨0, 0, 0, 0, 0, 0, 0, 0, 0, 0⟩

instance : Inhabited GitHubStats := ⟨GitHubStats.zero⟩

/-- `JiraStats` dataclass: per-engineer Jira counters.  Story points and the
two time fields are floats in Python, modelled as `ℚ`. -/
structure JiraStats where
  tickets_created : ℕ
  tickets_completed : ℕ
  tickets_in_progress : ℕ
  story_points_completed : ℚ
  comments_made : ℕ
  time_in_review : ℚ
  time_to_completion : ℚ
deriving DecidableEq, Repr

/-- All-zero default, matching the dataclass defaults. -/
def JiraStats.zero : JiraStats := ⟨0, 0, 0, 0, 0, 0, 0⟩

instance : Inhabited JiraStats := ⟨JiraStats.zero⟩

/-- `ProductivityScore` dataclass.  The numeric score type is a parameter:
the normalization claims use `ℚ`, the per-engineer scoring pipeline (which
involves `math.log10`) uses `ℝ`. -/
structure ProductivityScore (α : Type) where
  engineer : String
  github_stats : GitHubStats
  jira_stats : JiraStats
  github_score : α
  jira_score : α
  collaboration_score : α
  quality_score : α
  velocity_score : α
  total_score : α
  percentile_rank : α
deriving DecidableEq

/-- A score record carrying only a total, as `_normalize_scores` sees it:
every other field defaulted.  Used to build concrete inputs. -/
def mkScore (name : String) (t : ℚ) : ProductivityScore ℚ :=
  ⟨name, GitHubStats.zero, JiraStats.zero, 0, 0, 0, 0, 0, t, 0⟩

/-- `MinMaxScaler(feature_range=(0, 100)).fit_transform` on a column of
totals: `x ↦ (x - min) / (max - min) * 100`. -/
def minmax_rescale (totals : List ℚ) : List ℚ :=
  let mn := (totals.min?).getD 0
  let mx := (totals.max?).getD 0
  totals.map (fun t => (t - mn) / (mx - mn) * 100)

/-- A for-loop over `Option`-producing steps, aborting at the first failure:
models a Python loop whose body may raise. -/
def traverseOpt {α β : Type} (f : α → Option β) : List α → Option (List β)
  | [] => some []
  | a :: t =>
      match f a with
      | some b => (traverseOpt f t).map (fun l => b :: l)
      | none => none

/-- `ProductivityScorer._normalize_scores`.  Faithful to the source,
including the defect that `sorted_scores` is built from the totals captured
BEFORE the min-max rescale while `list.index` is then called on the
(possibly rescaled) `score.total_score`; a failed lookup models Python's
`ValueError` and makes the whole call return `none`. -/
def normalize_scores (scores : List (ProductivityScore ℚ)) :
    Option (List (ProductivityScore ℚ)) :=
  if scores.isEmpty then some scores
  else
    let total_scores := scores.map (fun s => s.total_score)
    let scores2 :=
      if 1 < total_scores.dedup.length then
        (scores.zip (minmax_rescale total_scores)).map
          (fun p => { p.1 with total_score := p.2 })
      else scores
    let sorted_scores := List.insertionSort (· ≥ ·) total_scores
    traverseOpt (fun s =>
      match sorted_scores.findIdx? (fun x => x == s.total_score) with
      | some rank =>
          some { s with percentile_rank :=
            ((sorted_scores.length : ℚ) - (rank : ℚ))
              / (sorted_scores.length : ℚ) * 100 }
      | none => none) scores2

/-- The three-engineer scenario from the spec: raw weighted totals 90, 45, 45. -/
def exampleScores : List (ProductivityScore ℚ) :=
  [mkScore "A" 90, mkScore "B" 45, mkScore "C" 45]

/-- Helper: `traverseOpt` succeeds pointwise. -/
theorem traverseOpt_eq_map {α β : Type} (f : α → Option β) (g : α → β)
    (l : List α) (h : ∀ a ∈ l, f a = some (g a)) :
    traverseOpt f l = some (l.map g) := by
  induction l with
  | nil => rfl
  | cons a t ih =>
      have ha : f a = some (g a) := h a (List.mem_cons_self a t)
      have ht : traverseOpt f t = some (t.map g) :=
        ih (fun x hx => h x (List.mem_cons_of_mem a hx))
      simp [traverseOpt, ha, ht]

/-- Helper: the dedup of a nonempty constant list is a singleton. -/
theorem dedup_const {l : List ℚ} {c : ℚ} (hne : l ≠ [])
    (hall : ∀ x ∈ l, x = c) : l.dedup = [c] := by
  induction l with
  | nil => exact absurd rfl hne
  | cons a t ih =>
      have hac : a = c := hall a (List.mem_cons_self a t)
      by_cases ht : t = []
      · subst ht; simp [List.dedup, hac]
      · have h2 : t.dedup = [c] :=
          ih ht (fun y hy => hall y (List.mem_cons_of_mem a hy))
        have hmem : a ∈ t := by
          have : c ∈ t.dedup := by simp [h2]
          rw [List.mem_dedup] at this
          rwa [hac]
        rw [List.dedup_cons_of_mem hmem, h2]

/-- General form of the degenerate-population behaviour of
`_normalize_scores`: when every total equals the same constant the rescale
branch is skipped, totals are unchanged, and every engineer receives
percentile rank 100. -/
theorem normalize_scores_const (scores : List (ProductivityScore ℚ)) (c : ℚ)
    (hall : ∀ s ∈ scores, s.total_score = c) :
    normalize_scores scores =
      some (scores.map (fun s => { s with percentile_rank := 100 })) := by
  by_cases hs : scores = []
  · subst hs; rfl
  · have hne : scores.isEmpty = false := by simpa [List.isEmpty_iff] using hs
    have htot : ∀ x ∈ scores.map (fun s => s.total_score), x = c := by
      intro x hx
      rcases List.mem_map.1 hx with ⟨s, hs2, rfl⟩
      exact hall s hs2
    have hmapne : scores.map (fun s => s.total_score) ≠ [] := by simpa using hs
    have hded : (scores.map (fun s => s.total_score)).dedup = [c] :=
      dedup_const hmapne htot
    have hlen1 : ¬ (1 < (scores.map (fun s => s.total_score)).dedup.length) := by
      rw [hded]; simp
    set T := scores.map (fun s => s.total_score) with hT
    set sorted := List.insertionSort (· ≥ ·) T with hsorted
    have hperm : sorted.Perm T := List.perm_insertionSort _ T
    have hslen : sorted.length = scores.length := by
      rw [hperm.length_eq, hT, List.length_map]
    have hsall : ∀ x ∈ sorted, x = c := fun x hx => htot x (hperm.mem_iff.1 hx)
    have hsne : sorted ≠ [] := by
      intro h0
      have := hperm.length_eq
      rw [h0] at this
      exact hmapne (List.length_eq_zero.1 this.symm)
    rcases List.exists_cons_of_ne_nil hsne with ⟨b, tl, hbtl⟩
    have hb : b = c := hsall b (by rw [hbtl]; exact List.mem_cons_self b tl)
    have hlenq : (sorted.length : ℚ) ≠ 0 := by
      rw [hslen]
      exact_mod_cast List.length_pos.2 hs |>.ne'
    have hfind : ∀ s ∈ scores,
        sorted.findIdx? (fun x => x == s.total_score) = some 0 := by
      intro s hmem
      rw [hbtl, hall s hmem]
      simp [List.findIdx?, hb]
    unfold normalize_scores
    rw [hne]
    simp only [Bool.false_eq_true, if_false, ← hT, hlen1, if_neg hlen1, ← hsorted]
    refine traverseOpt_eq_map _ _ _ ?_
    intro s hmem
    rw [hfind s hmem]
    simp only [Nat.cast_zero, sub_zero, div_self hlenq, one_mul]

/-- C1 (code bug): on the population with raw totals 90, 45, 45 the
percentile pass of `_normalize_scores` looks the rescaled total 100 up in
the list of RAW sorted totals `[90, 45, 45]`, so Python's `list.index`
raises `ValueError` (modelled as `none`) and the percentile formula of the
claim is never realised. -/
theorem C1_percentile_lookup_raises : normalize_scores exampleScores = none := by
  norm_num [normalize_scores, exampleScores, mkScore, minmax_rescale, traverseOpt,
    List.insertionSort, List.orderedInsert, List.findIdx?,
    List.min?, List.max?, List.dedup, List.pwFilter]

/-- C2 (code bug): for raw totals {A: 90, B: 45, C: 45} the min-max rescale
does produce A → 100 and B, C → 0, but `_normalize_scores` then raises
`ValueError` while computing percentile ranks (the rescaled total 100 is
absent from the raw sorted list), so the claimed percentile ranks 100 and
66.67 are never assigned. -/
theorem C2_three_engineer_scenario :
    minmax_rescale (exampleScores.map (fun s => s.total_score)) = [100, 0, 0] ∧
    normalize_scores exampleScores = none := by
  constructor
  · norm_num [exampleScores, mkScore, minmax_rescale, List.min?, List.max?]
  · norm_num [normalize_scores, exampleScores, mkScore, minmax_rescale, traverseOpt,
      List.insertionSort, List.orderedInsert, List.findIdx?,
      List.min?, List.max?, List.dedup, List.pwFilter]

/-- C3: `_normalize_scores` maps the empty list to the empty list without
error; a single engineer keeps its raw total and gets percentile rank
exactly 100; and whenever all raw totals are equal no rescale is attempted,
totals are unchanged (only the percentile rank field is set, to 100). -/
theorem C3_degenerate_normalization :
    normalize_scores [] = some [] ∧
    (∀ s : ProductivityScore ℚ,
      normalize_scores [s] = some [{ s with percentile_rank := 100 }]) ∧
    (∀ (scores : List (ProductivityScore ℚ)) (c : ℚ),
      (∀ s ∈ scores, s.total_score = c) →
      normalize_scores scores =
        some (scores.map (fun s => { s with percentile_rank := 100 }))) := by
  refine ⟨rfl, ?_, ?_⟩
  · intro s
    simpa using normalize_scores_const [s] s.total_score (by simp)
  · intro scores c h
    exact normalize_scores_const scores c h

/-- Witness for C3 at a concrete two-engineer population with equal totals. -/
theorem C3_degenerate_normalization_witness :
    normalize_scores [mkScore "A" 7, mkScore "B" 7] =
      some ([mkScore "A" 7, mkScore "B" 7].map
        (fun s => { s with percentile_rank := 100 })) := by
  refine C3_degenerate_normalization.2.2 [mkScore "A" 7, mkScore "B" 7] 7 ?_
  intro s hs
  fin_cases hs <;> rfl

/-! ## Activities and per-engineer scoring -/

/-- A GitHub pull request, with the fields the scorer reads. -/
structure PullRequest where
  body : Option String
  merged_at : Option String
  additions : ℕ
  deletions : ℕ
  changed_files : ℕ
deriving DecidableEq

/-- A GitHub commit (`commit.commit.message`). -/
structure Commit where
  message : String
deriving DecidableEq

/-- A GitHub review; `pull_request_url` defaults to the empty string as in
`review.get('pull_request_url', '')`. -/
structure Review where
  body : Option String
  pull_request_url : String
deriving DecidableEq

/-- A GitHub issue, with the field the scorer reads. -/
structure Issue where
  state : String
deriving DecidableEq

/-- A Jira ticket; `none` models a missing or null JSON field. -/
structure JiraTicket where
  assignee : Option String
  creator : Option String
  status : Option String
  storyPointEstimate : Option ℚ
  customfield_10016 : Option ℚ
  description : Option String
deriving DecidableEq

/-- A Jira comment. -/
structure JiraComment where
  body : Option String
deriving DecidableEq

/-- The `activities[engineer]['github']` bucket. -/
structure GitHubActivities where
  prs : List PullRequest
  commits : List Commit
  reviews : List Review
  issues : List Issue

/-- The `activities[engineer]['jira']` bucket (transitions are read by no
scorer and omitted). -/
structure JiraActivities where
  tickets : List JiraTicket
  comments : List JiraComment

/-- One engineer's extracted activities. -/
structure Activities where
  github : GitHubActivities
  jira : JiraActivities

/-- Python truthiness of an optional string: `None` and `''` are falsy. -/
def pyTruthyStr (o : Option String) : Bool :=
  match o with
  | some s => !s.isEmpty
  | none => false

/-- Python truthiness of an optional number: `None` and `0` are falsy. -/
def pyTruthyQ (o : Option ℚ) : Bool :=
  match o with
  | some q => q != 0
  | none => false

/-- A truthy display name, or `none`: models
`assignee and assignee.get('displayName')`. -/
def pyName (o : Option String) : Option String :=
  match o with
  | some s => if s = "" then none else some s
  | none => none

/-- The Jira-ticket part of `_extract_engineer_activities`, viewed from one
engineer: the ticket is appended for its assignee, then for its creator but
only if not already present (`if ticket not in activities[...]['tickets']`). -/
def extract_jira_tickets (engineer : String) (tickets : List JiraTicket) :
    List JiraTicket :=
  tickets.foldl (fun acc t =>
    let acc1 := if pyName t.assignee = some engineer then acc ++ [t] else acc
    if pyName t.creator = some engineer ∧ t ∉ acc1 then acc1 ++ [t] else acc1) []

/-- `ProductivityScorer._calculate_github_stats`. -/
def calculate_github_stats (g : GitHubActivities) : GitHubStats where
  prs_created := g.prs.length
  prs_merged := (g.prs.filter (fun pr => pyTruthyStr pr.merged_at)).length
  prs_reviewed := ((g.reviews.map (fun r => r.pull_request_url)).dedup).length
  commits_made := g.commits.length
  lines_added := (g.prs.map (fun pr => pr.additions)).sum
  lines_deleted := (g.prs.map (fun pr => pr.deletions)).sum
  files_changed := (g.prs.map (fun pr => pr.changed_files)).sum
  issues_created := g.issues.length
  issues_closed := (g.issues.filter (fun i => i.state == "closed")).length
  review_comments := (g.reviews.filter (fun r => pyTruthyStr r.body)).length

/-- `str.lower()` as a character-wise map (what `String.toLower` computes,
stated in a kernel-reducible form). -/
def pyLower (s : String) : String := ⟨s.data.map Char.toLower⟩

/-- `fields.get('status', {}).get('name', '').lower()`. -/
def statusName (t : JiraTicket) : String := pyLower (t.status.getD "")

/-- Terminal statuses: `['done', 'closed', 'resolved']`. -/
def completedStatuses : List String := ["done", "closed", "resolved"]

/-- In-flight statuses: `['in progress', 'in development']`. -/
def inProgressStatuses : List String := ["in progress", "in development"]

def isCompleted (t : JiraTicket) : Bool := completedStatuses.contains (statusName t)

def isInProgress (t : JiraTicket) : Bool := inProgressStatuses.contains (statusName t)

/-- `fields.get('storyPointEstimate') or fields.get('customfield_10016')`
(Python `or`: a stored 0 falls through to the custom field). -/
def ticketStoryPoints (t : JiraTicket) : Option ℚ :=
  if pyTruthyQ t.storyPointEstimate then t.storyPointEstimate
  else t.customfield_10016

/-- Loop body of `_calculate_jira_stats` for one ticket. -/
def jiraStatsStep (st : JiraStats) (t : JiraTicket) : JiraStats :=
  let st1 :=
    if isCompleted t then
      { st with tickets_completed := st.tickets_completed + 1 }
    else if isInProgress t then
      { st with tickets_in_progress := st.tickets_in_progress + 1 }
    else st
  if pyTruthyQ (ticketStoryPoints t) && isCompleted t then
    { st1 with story_points_completed :=
        st1.story_points_completed + (ticketStoryPoints t).getD 0 }
  else st1

/-- `ProductivityScorer._calculate_jira_stats`. -/
def calculate_jira_stats (tickets : List JiraTicket) (comments : List JiraComment) :
    JiraStats :=
  let st := tickets.foldl jiraStatsStep JiraStats.zero
  { st with tickets_created := tickets.length, comments_made := comments.length }

/-- `math.log10`, on the real idealization of floats. -/
noncomputable def log10 (x : ℝ) : ℝ := Real.logb 10 x

/-- `ProductivityScorer._calculate_github_score`: weighted activity total,
then `min(100, log10(max(1, total)) * 50)`. -/
noncomputable def calculate_github_score (s : GitHubStats) : ℝ :=
  let pr_score := ((s.prs_created : ℝ) * 0.20 + (s.prs_merged : ℝ) * 0.25) * 10
  let commit_score := (s.commits_made : ℝ) * 0.15 * 2
  let lines_score :=
    min (((s.lines_added : ℝ) + (s.lines_deleted : ℝ)) / 1000 * 0.10) 10 * 10
  let review_score := ((s.prs_reviewed : ℝ) * 0.15 + (s.review_comments : ℝ) * 0.10) * 5
  let issues_score := ((s.issues_created : ℝ) * 0.5 + (s.issues_closed : ℝ) * 1.0) * 0.05 * 10
  let total := pr_score + commit_score + lines_score + review_score + issues_score
  min 100 (log10 (max 1 total) * 50)

/-- `ProductivityScorer._calculate_jira_score`. -/
noncomputable def calculate_jira_score (s : JiraStats) : ℝ :=
  let completed_score := (s.tickets_completed : ℝ) * 0.40 * 15
  let story_points_score := ((s.story_points_completed : ℚ) : ℝ) * 0.25 * 5
  let created_score := (s.tickets_created : ℝ) * 0.10 * 8
  let comments_score := (s.comments_made : ℝ) * 0.10 * 3
  let velocity_bonus :=
    if 0 < s.tickets_created then
      min ((s.tickets_completed : ℝ) / (s.tickets_created : ℝ)) 2.0 * 0.15 * 10
    else 0
  let total := completed_score + story_points_score + created_score
    + comments_score + velocity_bonus
  min 100 (log10 (max 1 total) * 50)

/-- A review body that is truthy and whose stripped length exceeds 50. -/
def substantialReview (r : Review) : Bool :=
  match r.body with
  | some b => decide (50 < b.trim.length)
  | none => false

/-- A Jira comment body that is truthy and whose stripped length exceeds 100. -/
def substantialComment (c : JiraComment) : Bool :=
  match c.body with
  | some b => decide (100 < b.trim.length)
  | none => false

/-- `ProductivityScorer._calculate_collaboration_score` (the `engineer`
argument is unused by the source as well). -/
def calculate_collaboration_score (engineer : String) (a : Activities) : ℚ :=
  let reviews_given := a.github.reviews.length
  let review_comments := (a.github.reviews.filter substantialReview).length
  let jira_comments := a.jira.comments.length
  let meaningful_comments := (a.jira.comments.filter substantialComment).length
  let github_collab := reviews_given * 3 + review_comments * 2
  let jira_collab := jira_comments * 2 + meaningful_comments * 3
  let total_collab := github_collab + jira_collab
  min 100 ((total_collab : ℚ) * 2)

/-- Quality indicator of a PR: a truthy body of stripped length over 100
contributes `min(len(body)/500, 2.0)`. -/
def prQualityIndicator (pr : PullRequest) : Option ℚ :=
  match pr.body with
  | some b =>
      if 100 < b.trim.length then some (min ((b.length : ℚ) / 500) 2) else none
  | none => none

/-- Quality indicator of a commit message of stripped length over 50. -/
def commitQualityIndicator (c : Commit) : Option ℚ :=
  if 50 < c.message.trim.length then some (min ((c.message.length : ℚ) / 200) 1.5)
  else none

/-- Quality indicator of a ticket with a truthy description of stripped
length over 150. -/
def ticketQualityIndicator (t : JiraTicket) : Option ℚ :=
  match t.description with
  | some d =>
      if d ≠ "" ∧ 150 < d.trim.length then some (min ((d.length : ℚ) / 300) 2)
      else none
  | none => none

/-- The `quality_indicators` list, in source order: PRs, commits, tickets. -/
def quality_indicators (a : Activities) : List ℚ :=
  a.github.prs.filterMap prQualityIndicator
    ++ a.github.commits.filterMap commitQualityIndicator
    ++ a.jira.tickets.filterMap ticketQualityIndicator

/-- `ProductivityScorer._calculate_quality_score`: 50 when no semantic
indexer is set, else the average indicator times 30 capped at 100, or 25
when there is no qualifying text. -/
def calculate_quality_score (hasIndexer : Bool) (engineer : String)
    (a : Activities) : ℚ :=
  if !hasIndexer then 50
  else
    let qi := quality_indicators a
    if qi = [] then 25
    else min 100 (qi.sum / (qi.length : ℚ) * 30)

/-- `ProductivityScorer._calculate_velocity_score`. -/
def calculate_velocity_score (gs : GitHubStats) (js : JiraStats) : ℚ :=
  let github_velocity :=
    if 0 < gs.prs_created then ((gs.prs_merged : ℚ) / (gs.prs_created : ℚ)) * 50
    else 0
  let jira_velocity :=
    if 0 < js.tickets_created then
      ((js.tickets_completed : ℚ) / (js.tickets_created : ℚ)) * 50
    else 0
  let story_points_velocity := min (js.story_points_completed / 10) 5 * 10
  min 100 (github_velocity + jira_velocity + story_points_velocity)

/-- `ProductivityScorer._calculate_engineer_score`: stats, the four
component scores, the (unused-in-total) velocity score, and the weighted
total with weights github 0.35, jira 0.30, collaboration 0.20, quality 0.15. -/
noncomputable def calculate_engineer_score (hasIndexer : Bool) (engineer : String)
    (a : Activities) : ProductivityScore ℝ :=
  let github_stats := calculate_github_stats a.github
  let jira_stats := calculate_jira_stats a.jira.tickets a.jira.comments
  let github_score := calculate_github_score github_stats
  let jira_score := calculate_jira_score jira_stats
  let collaboration_score := ((calculate_collaboration_score engineer a : ℚ) : ℝ)
  let quality_score := ((calculate_quality_score hasIndexer engineer a : ℚ) : ℝ)
  let velocity_score := ((calculate_velocity_score github_stats jira_stats : ℚ) : ℝ)
  let total_score := github_score * 0.35 + jira_score * 0.30
    + collaboration_score * 0.20 + quality_score * 0.15
  { engineer := engineer
    github_stats := github_stats
    jira_stats := jira_stats
    github_score := github_score
    jira_score := jira_score
    collaboration_score := collaboration_score
    quality_score := quality_score
    velocity_score := velocity_score
    total_score := total_score
    percentile_rank := 0 }

/-- Helper: every quality indicator is nonnegative. -/
theorem quality_indicator_nonneg (a : Activities) :
    ∀ x ∈ quality_indicators a, 0 ≤ x := by
  intro x hx
  simp only [quality_indicators, List.mem_append, List.mem_filterMap] at hx
  rcases hx with (⟨pr, _, hpr⟩ | ⟨c, _, hc⟩) | ⟨t, _, ht⟩
  · unfold prQualityIndicator at hpr
    rcases hb : pr.body with _ | b <;> rw [hb] at hpr <;> dsimp only at hpr
    · exact absurd hpr (by simp)
    · by_cases hlen : 100 < b.trim.length
      · rw [if_pos hlen] at hpr
        obtain rfl : min ((b.length : ℚ) / 500) 2 = x := by simpa using hpr
        exact le_min (by positivity) (by norm_num)
      · rw [if_neg hlen] at hpr; exact absurd hpr (by simp)
  · unfold commitQualityIndicator at hc
    by_cases hlen : 50 < c.message.trim.length
    · rw [if_pos hlen] at hc
      obtain rfl : min ((c.message.length : ℚ) / 200) 1.5 = x := by simpa using hc
      exact le_min (by positivity) (by norm_num)
    · rw [if_neg hlen] at hc; exact absurd hc (by simp)
  · unfold ticketQualityIndicator at ht
    rcases hd : t.description with _ | d <;> rw [hd] at ht <;> dsimp only at ht
    · exact absurd ht (by simp)
    · by_cases hlen : d ≠ "" ∧ 150 < d.trim.length
      · rw [if_pos hlen] at ht
        obtain rfl : min ((d.length : ℚ) / 300) 2 = x := by simpa using ht
        exact le_min (by positivity) (by norm_num)
      · rw [if_neg hlen] at ht; exact absurd ht (by simp)

/-- C4: the four component scorers are each bounded into [0, 100]. -/
theorem C4_component_scores_bounded :
    (∀ gs : GitHubStats,
      0 ≤ calculate_github_score gs ∧ calculate_github_score gs ≤ 100) ∧
    (∀ js : JiraStats,
      0 ≤ calculate_jira_score js ∧ calculate_jira_score js ≤ 100) ∧
    (∀ (e : String) (a : Activities),
      0 ≤ calculate_collaboration_score e a ∧
        calculate_collaboration_score e a ≤ 100) ∧
    (∀ (hi : Bool) (e : String) (a : Activities),
      0 ≤ calculate_quality_score hi e a ∧ calculate_quality_score hi e a ≤ 100) := by
  refine ⟨?_, ?_, ?_, ?_⟩
  · intro gs
    unfold calculate_github_score
    refine ⟨le_min (by norm_num) ?_, min_le_left _ _⟩
    exact mul_nonneg
      (Real.logb_nonneg (by norm_num) (le_max_left 1 _)) (by norm_num)
  · intro js
    unfold calculate_jira_score
    refine ⟨le_min (by norm_num) ?_, min_le_left _ _⟩
    exact mul_nonneg
      (Real.logb_nonneg (by norm_num) (le_max_left 1 _)) (by norm_num)
  · intro e a
    unfold calculate_collaboration_score
    exact ⟨le_min (by norm_num) (by positivity), min_le_left _ _⟩
  · intro hi e a
    unfold calculate_quality_score
    rcases hi with _ | _
    · norm_num
    · simp only [Bool.not_true, Bool.false_eq_true, if_false]
      by_cases hqi : quality_indicators a = []
      · rw [if_pos hqi]; norm_num
      · rw [if_neg hqi]
        refine ⟨le_min (by norm_num) ?_, min_le_left _ _⟩
        have hsum : 0 ≤ (quality_indicators a).sum :=
          List.sum_nonneg (quality_indicator_nonneg a)
        positivity

/-- C5: the collaboration score is
`min(100, 2*(3*reviewsGiven + 2*substantialReviewComments + 2*comments + 3*substantialComments))`,
where substantial review bodies exceed 50 stripped characters and
substantial ticket comments exceed 100 stripped characters. -/
theorem C5_collaboration_formula (e : String) (a : Activities) :
    calculate_collaboration_score e a =
      min 100 (2 * (3 * (a.github.reviews.length : ℚ)
        + 2 * ((a.github.reviews.filter substantialReview).length : ℚ)
        + 2 * (a.jira.comments.length : ℚ)
        + 3 * ((a.jira.comments.filter substantialComment).length : ℚ))) := by
  unfold calculate_collaboration_score
  push_cast
  ring_nf

/-- An engineer with no activity at all. -/
def emptyActivities : Activities := ⟨⟨[], [], [], []⟩, ⟨[], []⟩⟩

/-- C6: without an indexer the quality score is exactly 50 for every
engineer; with an indexer but no qualifying long-form text (no PR body of
stripped length over 100, no commit message of stripped length over 50, no
ticket description of stripped length over 150) it is exactly 25. -/
theorem C6_quality_defaults :
    (∀ (e : String) (a : Activities), calculate_quality_score false e a = 50) ∧
    (∀ (e : String) (a : Activities),
      (∀ pr ∈ a.github.prs, ∀ b, pr.body = some b → b.trim.length ≤ 100) →
      (∀ c ∈ a.github.commits, c.message.trim.length ≤ 50) →
      (∀ t ∈ a.jira.tickets, ∀ d, t.description = some d → d.trim.length ≤ 150) →
      calculate_quality_score true e a = 25) := by
  constructor
  · intro e a; rfl
  · intro e a h1 h2 h3
    have hqi : quality_indicators a = [] := by
      unfold quality_indicators
      rw [List.append_eq_nil, List.append_eq_nil]
      refine ⟨⟨?_, ?_⟩, ?_⟩
      · rw [List.filterMap_eq_nil_iff]
        intro pr hpr
        unfold prQualityIndicator
        rcases hb : pr.body with _ | b
        · rfl
        · dsimp only
          rw [if_neg (not_lt.2 (h1 pr hpr b hb))]
      · rw [List.filterMap_eq_nil_iff]
        intro c hc
        unfold commitQualityIndicator
        rw [if_neg (not_lt.2 (h2 c hc))]
      · rw [List.filterMap_eq_nil_iff]
        intro t ht
        unfold ticketQualityIndicator
        rcases hd : t.description with _ | d
        · rfl
        · dsimp only
          rw [if_neg]
          rintro ⟨-, hlt⟩
          exact absurd hlt (not_lt.2 (h3 t ht d hd))
    unfold calculate_quality_score
    rw [Bool.not_true]
    simp only [Bool.false_eq_true, if_false, hqi]
    rfl

/-- Witness for C6 at an engineer with an active indexer and no text at all. -/
theorem C6_quality_defaults_witness :
    calculate_quality_score true "E" emptyActivities = 25 := by
  refine C6_quality_defaults.2 "E" emptyActivities ?_ ?_ ?_ <;> simp [emptyActivities]

/-- Helper: tickets with no terminal status contribute no story points. -/
theorem foldl_story_points_const (tickets : List JiraTicket) (st : JiraStats)
    (h : ∀ t ∈ tickets, isCompleted t = false) :
    (tickets.foldl jiraStatsStep st).story_points_completed =
      st.story_points_completed := by
  induction tickets generalizing st with
  | nil => rfl
  | cons t ts ih =>
      have hct : isCompleted t = false := h t (List.mem_cons_self t ts)
      rw [List.foldl_cons, ih _ (fun x hx => h x (List.mem_cons_of_mem t hx))]
      unfold jiraStatsStep
      rw [hct]
      simp only [Bool.false_eq_true, if_false, Bool.and_false]
      split <;> rfl

/-- The C7 scenario ticket: assignee and creator are the same engineer,
status Done, 5 story points. -/
def c7Ticket : JiraTicket :=
  { assignee := some "Eng", creator := some "Eng", status := some "Done",
    storyPointEstimate := some 5, customfield_10016 := none, description := none }

/-- C7: a ticket whose assignee and creator coincide is attributed once, so
the scenario yields tickets_completed = 1 and story_points_completed = 5
(counted once); and story points are only ever accumulated for tickets in a
terminal status (done / closed / resolved, case-insensitive). -/
theorem C7_ticket_attribution :
    (extract_jira_tickets "Eng" [c7Ticket] = [c7Ticket] ∧
     (calculate_jira_stats (extract_jira_tickets "Eng" [c7Ticket]) []).tickets_completed = 1 ∧
     (calculate_jira_stats (extract_jira_tickets "Eng" [c7Ticket]) []).story_points_completed = 5) ∧
    (∀ (tickets : List JiraTicket) (comments : List JiraComment),
      (∀ t ∈ tickets, isCompleted t = false) →
      (calculate_jira_stats tickets comments).story_points_completed = 0) := by
  constructor
  · have hext : extract_jira_tickets "Eng" [c7Ticket] = [c7Ticket] := by
      simp [extract_jira_tickets, c7Ticket, pyName]
    have hcomp : isCompleted c7Ticket = true := by decide
    have hprog : isInProgress c7Ticket = false := by decide
    have hsp : pyTruthyQ (ticketStoryPoints c7Ticket) = true := by decide
    have hspv : (ticketStoryPoints c7Ticket).getD 0 = 5 := by
      norm_num [ticketStoryPoints, c7Ticket, pyTruthyQ]
    refine ⟨hext, ?_, ?_⟩
    · rw [hext]
      simp [calculate_jira_stats, jiraStatsStep, hcomp, hsp, JiraStats.zero]
    · rw [hext]
      simp [calculate_jira_stats, jiraStatsStep, hcomp, hsp, hspv, JiraStats.zero]
  · intro tickets comments h
    unfold calculate_jira_stats
    exact foldl_story_points_const tickets JiraStats.zero h

/-- A non-terminal ticket used as the concrete input of the C7 witness. -/
def openTicket : JiraTicket :=
  { assignee := some "Eng", creator := none, status := some "In Progress",
    storyPointEstimate := some 3, customfield_10016 := none, description := none }

/-- Witness for C7 at a ticket list with no terminal status. -/
theorem C7_ticket_attribution_witness :
    (calculate_jira_stats [openTicket] []).story_points_completed = 0 := by
  refine C7_ticket_attribution.2 [openTicket] [] ?_
  intro t ht
  fin_cases ht
  decide

/-- C9: the stored total is exactly
`0.35*github + 0.30*jira + 0.20*collaboration + 0.15*quality`; the velocity
score, although computed, stored and clamped to [0,100] (for nonnegative
accumulated story points), contributes nothing: any two inputs with the
same four component scores get the same total. -/
theorem C9_total_ignores_velocity :
    (∀ (hi : Bool) (e : String) (a : Activities),
      (calculate_engineer_score hi e a).total_score =
        0.35 * (calculate_engineer_score hi e a).github_score
        + 0.30 * (calculate_engineer_score hi e a).jira_score
        + 0.20 * (calculate_engineer_score hi e a).collaboration_score
        + 0.15 * (calculate_engineer_score hi e a).quality_score) ∧
    (∀ (hi1 hi2 : Bool) (e1 e2 : String) (a1 a2 : Activities),
      (calculate_engineer_score hi1 e1 a1).github_score
          = (calculate_engineer_score hi2 e2 a2).github_score →
      (calculate_engineer_score hi1 e1 a1).jira_score
          = (calculate_engineer_score hi2 e2 a2).jira_score →
      (calculate_engineer_score hi1 e1 a1).collaboration_score
          = (calculate_engineer_score hi2 e2 a2).collaboration_score →
      (calculate_engineer_score hi1 e1 a1).quality_score
          = (calculate_engineer_score hi2 e2 a2).quality_score →
      (calculate_engineer_score hi1 e1 a1).total_score
          = (calculate_engineer_score hi2 e2 a2).total_score) ∧
    (∀ (gs : GitHubStats) (js : JiraStats),
      0 ≤ js.story_points_completed →
      0 ≤ calculate_velocity_score gs js ∧ calculate_velocity_score gs js ≤ 100) := by
  have hform : ∀ (hi : Bool) (e : String) (a : Activities),
      (calculate_engineer_score hi e a).total_score =
        0.35 * (calculate_engineer_score hi e a).github_score
        + 0.30 * (calculate_engineer_score hi e a).jira_score
        + 0.20 * (calculate_engineer_score hi e a).collaboration_score
        + 0.15 * (calculate_engineer_score hi e a).quality_score := by
    intro hi e a
    simp only [calculate_engineer_score]
    ring
  refine ⟨hform, ?_, ?_⟩
  · intro hi1 hi2 e1 e2 a1 a2 hg hj hc hq
    rw [hform, hform, hg, hj, hc, hq]
  · intro gs js hsp
    unfold calculate_velocity_score
    refine ⟨le_min (by norm_num) ?_, min_le_left _ _⟩
    have h1 : (0:ℚ) ≤
        (if 0 < gs.prs_created then ((gs.prs_merged : ℚ) / (gs.prs_created : ℚ)) * 50 else 0) := by
      split
      · positivity
      · exact le_refl 0
    have h2 : (0:ℚ) ≤
        (if 0 < js.tickets_created then ((js.tickets_completed : ℚ) / (js.tickets_created : ℚ)) * 50 else 0) := by
      split
      · positivity
      · exact le_refl 0
    have h3 : (0:ℚ) ≤ min (js.story_points_completed / 10) 5 * 10 := by
      have hm : (0:ℚ) ≤ min (js.story_points_completed / 10) 5 :=
        le_min (by positivity) (by norm_num)
      positivity
    exact add_nonneg (add_nonneg h1 h2) h3

/-- Witness for C9 at concrete inputs: same activities twice, and the
all-zero statistics. -/
theorem C9_total_ignores_velocity_witness :
    (calculate_engineer_score true "E" emptyActivities).total_score =
      (calculate_engineer_score true "E" emptyActivities).total_score ∧
    0 ≤ calculate_velocity_score GitHubStats.zero JiraStats.zero ∧
      calculate_velocity_score GitHubStats.zero JiraStats.zero ≤ 100 :=
  ⟨C9_total_ignores_velocity.2.1 true true "E" "E" emptyActivities emptyActivities
      rfl rfl rfl rfl,
   C9_total_ignores_velocity.2.2 GitHubStats.zero JiraStats.zero (le_refl 0)⟩

/-! ## Semantic search (`simple_indexer.py`) -/

/-- `SimpleDocument` dataclass (the TF-IDF vector lives in the state's
similarity oracle, see `IndexerState`). -/
structure SimpleDocument where
  doc_id : String
  content : String
  source : String
  doc_type : String
  author : String
  created_at : String
deriving DecidableEq, Repr

instance : Inhabited SimpleDocument := ⟨⟨"", "", "", "", "", ""⟩⟩

/-- One entry of the result list built by `semantic_search` (content, score
and the metadata fields the callers read). -/
structure SearchResult where
  content : String
  score : ℚ
  doc_id : String
  source : String
  doc_type : String
  author : String
deriving DecidableEq, Repr

/-- State of a `SimpleSemanticIndexer`.  The sklearn vectorize-and-cosine
step is abstracted into the oracle `cosine`, giving for each query the
cosine-similarity of its TF-IDF vector against each indexed document (one
rational per document, as `cosine_similarity(query_vector, tfidf_matrix)[0]`
returns); `tfidf_present` models `self.tfidf_matrix is not None` and
`vectorizer_fitted` models whether `self.vectorizer.transform` succeeds
(an unfitted or missing vectorizer raises, which the source catches). -/
structure IndexerState where
  documents : List SimpleDocument
  tfidf_present : Bool
  vectorizer_fitted : Bool
  cosine : String → List ℚ
  cosine_length : ∀ q, (cosine q).length = documents.length

/-- Python `xs[-k:]` for a natural `k`: the whole list when `k = 0`
(`-0 == 0`), otherwise the last `min k (len xs)` elements. -/
def pyTailSlice {α : Type} (k : ℕ) (xs : List α) : List α :=
  if k = 0 then xs else xs.drop (xs.length - k)

/-- The result dictionary built for a hit. -/
def mkResult (d : SimpleDocument) (s : ℚ) : SearchResult :=
  ⟨d.content, s, d.doc_id, d.source, d.doc_type, d.author⟩

/-- Python `xs[-k:]` is a sublist. -/
theorem pyTailSlice_sublist {α : Type} (k : ℕ) (xs : List α) :
    (pyTailSlice k xs).Sublist xs := by
  unfold pyTailSlice
  split
  · exact List.Sublist.refl xs
  · exact List.drop_sublist _ xs

/-- For `k ≥ 1` the tail slice has at most `k` elements. -/
theorem pyTailSlice_length_le {α : Type} (k : ℕ) (xs : List α) (hk : 1 ≤ k) :
    (pyTailSlice k xs).length ≤ k := by
  unfold pyTailSlice
  rw [if_neg (by omega : ¬ k = 0), List.length_drop]
  omega

/-- A `filterMap` with an if-then-some body is a mapped filter. -/
theorem filterMap_if_eq_map_filter {α β : Type} (p : α → Prop) [DecidablePred p]
    (g : α → β) (l : List α) :
    l.filterMap (fun i => if p i then some (g i) else none)
      = (l.filter (fun i => decide (p i))).map g := by
  induction l with
  | nil => rfl
  | cons a t ih => by_cases h : p a <;> simp [h, ih]

/-- The ranking part of `semantic_search`: rank all document indices by
similarity ascending (`similarities.argsort()`, modelled as a stable sort of
the index list by value), keep `[-top_k:]` reversed, and keep hits whose
similarity strictly exceeds 0.1, packaging each as a result dictionary. -/
def rankResults (docs : List SimpleDocument) (sims : List ℚ) (top_k : ℕ) :
    List SearchResult :=
  let order := List.insertionSort
    (fun i j => sims.getD i 0 ≤ sims.getD j 0) (List.range sims.length)
  let top := (pyTailSlice top_k order).reverse
  top.filterMap (fun i =>
    if 1/10 < sims.getD i 0 then
      some (mkResult (docs.getD i default) (sims.getD i 0))
    else none)

/-- Body of `SimpleSemanticIndexer.semantic_search` inside its `try`:
guard on an empty corpus or missing matrix, vectorize (which raises on an
unfitted vectorizer, modelled as `Except.error`), then rank. -/
def semantic_search_impl (st : IndexerState) (q : String) (top_k : ℕ) :
    Except Unit (List SearchResult) :=
  if st.documents.isEmpty || !st.tfidf_present then .ok []
  else if !st.vectorizer_fitted then .error ()
  else .ok (rankResults st.documents (st.cosine q) top_k)

/-- `SimpleSemanticIndexer.semantic_search`: the surrounding `try/except`
turns any raise into an empty result list. -/
def semantic_search (st : IndexerState) (q : String) (top_k : ℕ) :
    List SearchResult :=
  match semantic_search_impl st q top_k with
  | .ok r => r
  | .error _ => []

/-- `SimpleSemanticIndexer.find_similar_work`: search over `top_k * 2`
candidates, partition by exact author match, cap each bucket at `top_k`. -/
def find_similar_work (st : IndexerState) (content author : String)
    (top_k : ℕ) : List SearchResult × List SearchResult :=
  let results := semantic_search st content (top_k * 2)
  let author_results := results.filter (fun r => r.author == author)
  let other_results := results.filter (fun r => !(r.author == author))
  (author_results.take top_k, other_results.take top_k)

/-- Two identically-worded documents by different authors (shared terms keep
`min_df=2` satisfiable), each with cosine similarity 1 to the query that
repeats their text. -/
def ceDocs : List SimpleDocument :=
  [⟨"github_pr_1", "fix login bug", "github", "pr", "alice", "2024-01-01"⟩,
   ⟨"github_pr_2", "fix login bug", "github", "pr", "bob", "2024-01-02"⟩]

/-- A fitted indexer over `ceDocs` whose oracle reports similarity 1 for
both documents (the similarity of a query with the very same cleaned text). -/
def ceState : IndexerState :=
  { documents := ceDocs
    tfidf_present := true
    vectorizer_fitted := true
    cosine := fun _ => [1, 1]
    cosine_length := fun _ => rfl }

/-- Helper: at most `top_k ≥ 1` ranked results. -/
theorem rankResults_length_le (docs : List SimpleDocument) (sims : List ℚ)
    (k : ℕ) (hk : 1 ≤ k) : (rankResults docs sims k).length ≤ k := by
  unfold rankResults
  calc (List.filterMap _ _).length
      ≤ ((pyTailSlice k (List.insertionSort
          (fun i j => sims.getD i 0 ≤ sims.getD j 0)
          (List.range sims.length))).reverse).length :=
        List.length_filterMap_le _ _
    _ ≤ k := by
        rw [List.length_reverse]
        exact pyTailSlice_length_le k _ hk

/-- Helper: every ranked result clears the 0.1 threshold strictly. -/
theorem rankResults_threshold (docs : List SimpleDocument) (sims : List ℚ)
    (k : ℕ) : ∀ r ∈ rankResults docs sims k, 1/10 < r.score := by
  intro r hr
  unfold rankResults at hr
  rcases List.mem_filterMap.1 hr with ⟨i, _, hfi⟩
  by_cases hthr : 1/10 < sims.getD i 0
  · rw [if_pos hthr] at hfi
    obtain rfl : mkResult (docs.getD i default) (sims.getD i 0) = r := by
      simpa using hfi
    exact hthr
  · rw [if_neg hthr] at hfi
    exact absurd hfi (by simp)

/-- Helper: ranked results are sorted by similarity, descending. -/
theorem rankResults_sorted (docs : List SimpleDocument) (sims : List ℚ)
    (k : ℕ) :
    ((rankResults docs sims k).map (fun r => r.score)).Sorted (· ≥ ·) := by
  haveI : IsTotal ℕ (fun i j => sims.getD i 0 ≤ sims.getD j 0) :=
    ⟨fun i j => le_total _ _⟩
  haveI : IsTrans ℕ (fun i j => sims.getD i 0 ≤ sims.getD j 0) :=
    ⟨fun i j l hij hjl => le_trans hij hjl⟩
  have hsorted : (List.insertionSort
      (fun i j => sims.getD i 0 ≤ sims.getD j 0)
      (List.range sims.length)).Sorted
        (fun i j => sims.getD i 0 ≤ sims.getD j 0) :=
    List.sorted_insertionSort _ _
  have htopsorted : ((pyTailSlice k (List.insertionSort
      (fun i j => sims.getD i 0 ≤ sims.getD j 0)
      (List.range sims.length))).reverse).Pairwise
        (fun i j => sims.getD j 0 ≤ sims.getD i 0) := by
    rw [List.pairwise_reverse]
    exact List.Pairwise.sublist (pyTailSlice_sublist k _) hsorted
  unfold rankResults
  rw [filterMap_if_eq_map_filter, List.map_map]
  rw [show ((fun r : SearchResult => r.score) ∘
      fun i => mkResult (docs.getD i default) (sims.getD i 0))
      = fun i => sims.getD i 0 from rfl]
  rw [List.Sorted, List.pairwise_map]
  exact List.Pairwise.sublist (List.filter_sublist _) htopsorted

/-- C8 (amended to topK ≥ 1): for every positive topK, at most topK results
come back, each with cosine similarity strictly above the 0.1 threshold,
sorted descending by similarity; searching an empty corpus yields the empty
list rather than an error. -/
theorem C8_search_contract :
    ∀ (st : IndexerState) (q : String) (top_k : ℕ), 1 ≤ top_k →
      (semantic_search st q top_k).length ≤ top_k ∧
      (∀ r ∈ semantic_search st q top_k, 1/10 < r.score) ∧
      ((semantic_search st q top_k).map (fun r => r.score)).Sorted (· ≥ ·) ∧
      (st.documents = [] → semantic_search st q top_k = []) := by
  intro st q k hk
  unfold semantic_search semantic_search_impl
  by_cases hemp : st.documents.isEmpty || !st.tfidf_present
  · rw [if_pos hemp]
    simp
  · rw [if_neg hemp]
    have hdoc : st.documents ≠ [] := by
      intro h0
      exact hemp (by simp [h0])
    by_cases hfit : !st.vectorizer_fitted
    · rw [if_pos hfit]
      simp [hdoc]
    · rw [if_neg hfit]
      dsimp only
      exact ⟨rankResults_length_le _ _ k hk, rankResults_threshold _ _ k,
        rankResults_sorted _ _ k, fun h0 => absurd h0 hdoc⟩

/-- C8 counterexample for topK = 0: Python `[-0:]` slices the whole array,
so a search with topK = 0 over two above-threshold documents returns 2
results, not at most 0. -/
theorem C8_topk_zero_counterexample :
    (semantic_search ceState "fix login bug" 0).length = 2 := by
  norm_num [semantic_search, semantic_search_impl, rankResults, ceState, ceDocs,
    pyTailSlice, mkResult, List.insertionSort, List.orderedInsert, List.range_succ,
    List.filterMap_cons, List.getElem?_cons_succ, List.getElem?_cons_zero]

/-- Witness for C8 at the concrete fitted two-document state with topK = 1. -/
theorem C8_search_contract_witness :
    (semantic_search ceState "fix login bug" 1).length ≤ 1 :=
  (C8_search_contract ceState "fix login bug" 1 (le_refl 1)).1

/-- C10: search never propagates an exception — an unfitted vectorizer
(the internal failure mode of `transform`) yields an empty result list, and
`find_similar_work` then yields two empty buckets; each bucket holds at most
topK results; the buckets partition by exact author match; and both buckets
are drawn from a search over `2 * topK` candidates. -/
theorem C10_search_failure_and_buckets :
    (∀ (st : IndexerState) (q : String) (k : ℕ),
      st.vectorizer_fitted = false → semantic_search st q k = []) ∧
    (∀ (st : IndexerState) (c a : String) (k : ℕ),
      st.vectorizer_fitted = false → find_similar_work st c a k = ([], [])) ∧
    (∀ (st : IndexerState) (c a : String) (k : ℕ),
      (find_similar_work st c a k).1.length ≤ k ∧
      (find_similar_work st c a k).2.length ≤ k) ∧
    (∀ (st : IndexerState) (c a : String) (k : ℕ),
      (∀ r ∈ (find_similar_work st c a k).1, r.author = a) ∧
      (∀ r ∈ (find_similar_work st c a k).2, r.author ≠ a)) ∧
    (∀ (st : IndexerState) (c a : String) (k : ℕ),
      (find_similar_work st c a k).1.Sublist (semantic_search st c (k * 2)) ∧
      (find_similar_work st c a k).2.Sublist (semantic_search st c (k * 2))) := by
  have hfail : ∀ (st : IndexerState) (q : String) (k : ℕ),
      st.vectorizer_fitted = false → semantic_search st q k = [] := by
    intro st q k h
    cases hc : (st.documents.isEmpty || !st.tfidf_present) <;>
      simp [semantic_search, semantic_search_impl, h, hc]
  refine ⟨hfail, ?_, ?_, ?_, ?_⟩
  · intro st c a k h
    simp [find_similar_work, hfail st c (k * 2) h]
  · intro st c a k
    constructor <;> exact List.length_take_le _ _ |>.trans (le_refl k)
  · intro st c a k
    constructor
    · intro r hr
      have hr2 := List.mem_of_mem_take hr
      have := (List.mem_filter.1 hr2).2
      simpa using this
    · intro r hr
      have hr2 := List.mem_of_mem_take hr
      have := (List.mem_filter.1 hr2).2
      simpa using this
  · intro st c a k
    constructor
    · exact (List.take_sublist _ _).trans (List.filter_sublist _)
    · exact (List.take_sublist _ _).trans (List.filter_sublist _)

/-- The two-document state with an unfitted vectorizer, the C10 witness
input. -/
def unfittedState : IndexerState :=
  { documents := ceDocs
    tfidf_present := true
    vectorizer_fitted := false
    cosine := fun _ => [1, 1]
    cosine_length := fun _ => rfl }

/-- Witness for C10: the caught internal failure yields empties. -/
theorem C10_search_failure_witness :
    semantic_search unfittedState "fix login bug" 3 = [] ∧
    find_similar_work unfittedState "fix login bug" "alice" 3 = ([], []) :=
  ⟨C10_search_failure_and_buckets.1 unfittedState "fix login bug" 3 rfl,
   C10_search_failure_and_buckets.2.1 unfittedState "fix login bug" "alice" 3 rfl⟩
